import Mathlib

/-!
Shallow embedding of the dungeon-adventure game engine (`src/game.js`) and
proofs about its specification.

Modelling conventions:
- JS numbers that are always integers in the program (health, base stats,
  damage amounts, experience) are modelled as `Int` / `Nat`; quantities that
  are genuinely fractional (dodge probabilities, the 0.5 mitigation factor,
  fractional enemy template stats) are modelled as `ℚ`.
- Mutating methods become functions returning the updated value (paired with
  the JS return value where the caller uses it).
- Calls to `Math.random()` / `randomInt` / `randomChoice` are modelled by
  explicit oracle parameters (a rational roll in `[0,1)`, an integer variance
  draw, or a choice index).
- `setTimeout`-scheduled enemy turns are outside the synchronous step being
  modelled; `checkCombatEnd` below covers the synchronous part of the check.
-/

-- ============================================================================
-- ITEM SYSTEM
-- ============================================================================

/-- Item categories (`item.type` in the source). -/
inductive ItemType
  | weapon
  | armor
  | consumable
  | artifact
deriving DecidableEq

/-- Stat bags: the four named stats used throughout (`strength, defense,
agility, intelligence`).  A JS object with missing keys defaulting to 0 is
modelled as a record with explicit zero fields. -/
structure Stats where
  strength : Int
  defense : Int
  agility : Int
  intelligence : Int
deriving DecidableEq

/-- The empty stat object `{}` (all keys absent, i.e. 0). -/
def Stats.zero : Stats := ⟨0, 0, 0, 0⟩

/-- Componentwise sum of two stat bags. -/
def Stats.add (a b : Stats) : Stats :=
  ⟨a.strength + b.strength, a.defense + b.defense,
   a.agility + b.agility, a.intelligence + b.intelligence⟩

/-- The eleven shared item templates of `ITEM_TEMPLATES`.  Items are shared,
stateless template objects in the source, so template identity is item
identity (JS reference equality on templates). -/
inductive Item
  | rustyDagger
  | ironSword
  | flameBlade
  | shadowDagger
  | leatherArmor
  | chainmail
  | crystalPlate
  | healthPotion
  | strengthElixir
  | luckyCoin
  | ancientTome
deriving DecidableEq

/-- The `type` field of each item template. -/
def Item.type : Item → ItemType
  | .rustyDagger => .weapon
  | .ironSword => .weapon
  | .flameBlade => .weapon
  | .shadowDagger => .weapon
  | .leatherArmor => .armor
  | .chainmail => .armor
  | .crystalPlate => .armor
  | .healthPotion => .consumable
  | .strengthElixir => .consumable
  | .luckyCoin => .artifact
  | .ancientTome => .artifact

/-- The `name` field of each item template. -/
def Item.name : Item → String
  | .rustyDagger => "Rusty Dagger"
  | .ironSword => "Iron Sword"
  | .flameBlade => "Flame Blade"
  | .shadowDagger => "Shadow Dagger"
  | .leatherArmor => "Leather Armor"
  | .chainmail => "Chainmail"
  | .crystalPlate => "Crystal Plate"
  | .healthPotion => "Health Potion"
  | .strengthElixir => "Strength Elixir"
  | .luckyCoin => "Lucky Coin"
  | .ancientTome => "Ancient Tome"

/-- The static stat-bonus `effect` object of an equippable template
(`none` for consumables, whose effect is a function and therefore does not
contribute to `getEquippedStats`). -/
def Item.effectObj : Item → Option Stats
  | .rustyDagger => some ⟨2, 0, 0, 0⟩
  | .ironSword => some ⟨5, 0, 0, 0⟩
  | .flameBlade => some ⟨8, 0, 0, 3⟩
  | .shadowDagger => some ⟨6, 0, 4, 0⟩
  | .leatherArmor => some ⟨0, 3, 0, 0⟩
  | .chainmail => some ⟨0, 6, 0, 0⟩
  | .crystalPlate => some ⟨0, 8, 0, 2⟩
  | .healthPotion => none
  | .strengthElixir => none
  | .luckyCoin => some ⟨0, 0, 2, 0⟩
  | .ancientTome => some ⟨0, 0, 0, 4⟩

-- ============================================================================
-- INVENTORY
-- ============================================================================

/-- The three equip slots of `inventory.equipped`. -/
inductive Slot
  | weapon
  | armor
  | artifact
deriving DecidableEq, Fintype

/-- The slot an item category is equipped into (`null` for consumables),
as computed inside `Inventory.equip`. -/
def slotOfType : ItemType → Option Slot
  | .weapon => some .weapon
  | .armor => some .armor
  | .artifact => some .artifact
  | .consumable => none

/-- `class Inventory`: an ordered held-item list bounded by `maxSlots`
(`CONFIG.INVENTORY_SLOTS = 15`), plus one equip slot per category. -/
structure Inventory where
  items : List Item
  maxSlots : Nat
  weapon : Option Item
  armor : Option Item
  artifact : Option Item
deriving DecidableEq

/-- Read `this.equipped[slot]`. -/
def Inventory.getSlot (inv : Inventory) : Slot → Option Item
  | .weapon => inv.weapon
  | .armor => inv.armor
  | .artifact => inv.artifact

/-- Write `this.equipped[slot] = v`. -/
def Inventory.setSlot (inv : Inventory) (s : Slot) (v : Option Item) : Inventory :=
  match s with
  | .weapon => { inv with weapon := v }
  | .armor => { inv with armor := v }
  | .artifact => { inv with artifact := v }

/-- `Inventory.addItem`: fails when the held list is at capacity, otherwise
appends.  Returns the JS boolean result together with the new inventory. -/
def Inventory.addItem (inv : Inventory) (it : Item) : Bool × Inventory :=
  if inv.items.length ≥ inv.maxSlots then (false, inv)
  else (true, { inv with items := inv.items ++ [it] })

/-- `Inventory.removeItem`: removes the first occurrence (indexOf + splice);
no-op when absent. -/
def Inventory.removeItem (inv : Inventory) (it : Item) : Bool × Inventory :=
  if it ∈ inv.items then (true, { inv with items := inv.items.erase it })
  else (false, inv)

/-- `Inventory.equip`: fails when the item is not held or is a consumable;
otherwise the current occupant (if any) is pushed back onto the held list
(silently dropped when full), the slot is overwritten, and the item is removed
from the held list. -/
def Inventory.equip (inv : Inventory) (it : Item) : Bool × Inventory :=
  if it ∈ inv.items then
    match slotOfType it.type with
    | some s =>
      let inv1 :=
        match inv.getSlot s with
        | some old => (inv.addItem old).2
        | none => inv
      let inv2 := inv1.setSlot s (some it)
      (true, (inv2.removeItem it).2)
    | none => (false, inv)
  else (false, inv)

/-- `Inventory.unequip`: clears a non-empty slot and attempts to push its item
back onto the held list (the `addItem` result is ignored); no-op on an empty
slot. -/
def Inventory.unequip (inv : Inventory) (s : Slot) : Bool × Inventory :=
  match inv.getSlot s with
  | some it => (true, ((inv.setSlot s none).addItem it).2)
  | none => (false, inv)

/-- `Inventory.getEquippedStats`: sums the static effect objects of all
equipped items (function-valued effects contribute nothing). -/
def Inventory.getEquippedStats (inv : Inventory) : Stats :=
  let acc := fun (st : Stats) (o : Option Item) =>
    match o with
    | some it =>
      match it.effectObj with
      | some eff => st.add eff
      | none => st
    | none => st
  acc (acc (acc Stats.zero inv.weapon) inv.armor) inv.artifact

-- ============================================================================
-- PLAYER
-- ============================================================================

/-- The two story paths. -/
inductive PathKind
  | light
  | shadow
deriving DecidableEq

/-- Kernel-computable integer square root by binary search over 32 bits
(sufficient for every argument below 2^64). -/
def isqrtGo (n : Nat) : Nat → Nat → Nat
  | 0, r => r
  | fuel + 1, r =>
    let c := r + 2 ^ fuel
    if c * c ≤ n then isqrtGo n fuel c else isqrtGo n fuel r

/-- Floor of the real square root of `n` (for `n < 2^64`). -/
def isqrt (n : Nat) : Nat := isqrtGo n 32 0

/-- `calculateXPForLevel(level) = Math.floor(100 * level^1.5)`.  Since
`(100 · l^1.5)² = 10000 · l³`, this equals `⌊√(10000 l³)⌋`. -/
def calculateXPForLevel (level : Nat) : Nat := isqrt (10000 * level ^ 3)

/-- `class Player`. -/
structure Player where
  level : Nat
  xp : Nat
  health : Int
  maxHealth : Int
  baseStats : Stats
  statPoints : Int
  tempStats : Stats
  inventory : Inventory
  chosenPath : Option PathKind
deriving DecidableEq

/-- `new Player()`: level 1, 100 HP, base stats 5, starting equipment
Rusty Dagger and a Health Potion. -/
def initPlayer : Player :=
  { level := 1
    xp := 0
    health := 100
    maxHealth := 100
    baseStats := ⟨5, 5, 5, 5⟩
    statPoints := 0
    tempStats := Stats.zero
    inventory :=
      { items := [.rustyDagger, .healthPotion]
        maxSlots := 15
        weapon := none, armor := none, artifact := none }
    chosenPath := none }

/-- `Player.getTotalStats`: base + equipped + temporary. -/
def Player.getTotalStats (p : Player) : Stats :=
  (p.baseStats.add p.inventory.getEquippedStats).add p.tempStats

/-- `Player.levelUp`: +1 level, +3 stat points (`CONFIG.BASE_STAT_POINTS`),
+1 to every base stat, +10 max health, full heal. -/
def Player.levelUp (p : Player) : Player :=
  { p with
    level := p.level + 1
    statPoints := p.statPoints + 3
    baseStats := p.baseStats.add ⟨1, 1, 1, 1⟩
    maxHealth := p.maxHealth + 10
    health := p.maxHealth + 10 }

/-- `Player.addXP`: adds experience and performs (at most one) level-up when
the accumulated total reaches the requirement for the next level.  Returns the
JS boolean (did a level-up happen) with the updated player. -/
def Player.addXP (p : Player) (amount : Nat) : Bool × Player :=
  let p := { p with xp := p.xp + amount }
  if p.xp ≥ calculateXPForLevel (p.level + 1) then (true, p.levelUp)
  else (false, p)

/-- `Player.allocateStat`: spends one stat point on a recognized base stat
(the dynamic `hasOwnProperty` check becomes an explicit name dispatch);
fails and leaves the player unchanged otherwise. -/
def Player.allocateStat (p : Player) (stat : String) : Bool × Player :=
  if p.statPoints > 0 then
    if stat = "strength" then
      (true, { p with baseStats := { p.baseStats with strength := p.baseStats.strength + 1 }
                      statPoints := p.statPoints - 1 })
    else if stat = "defense" then
      (true, { p with baseStats := { p.baseStats with defense := p.baseStats.defense + 1 }
                      statPoints := p.statPoints - 1 })
    else if stat = "agility" then
      (true, { p with baseStats := { p.baseStats with agility := p.baseStats.agility + 1 }
                      statPoints := p.statPoints - 1 })
    else if stat = "intelligence" then
      (true, { p with baseStats := { p.baseStats with intelligence := p.baseStats.intelligence + 1 }
                      statPoints := p.statPoints - 1 })
    else (false, p)
  else (false, p)

/-- `Player.takeDamage`: mitigation is `Math.floor(defense * 0.5)` on the
effective defense, final damage at least 1, health clamped at 0; returns the
final damage together with the updated player. -/
def Player.takeDamage (p : Player) (amount : Int) : Int × Player :=
  let stats := p.getTotalStats
  let reduction : Int := ⌊(stats.defense : ℚ) * (0.5 : ℚ)⌋
  let damage := max 1 (amount - reduction)
  (damage, { p with health := max 0 (p.health - damage) })

/-- `Player.calculateDamage` with the `randomInt(-2, 3)` draw made explicit. -/
def Player.calculateDamage (p : Player) (variance : Int) : Int :=
  max 1 (p.getTotalStats.strength * 2 + variance)

/-- `Player.calculateSpecialDamage` with the `randomInt(-3, 5)` draw made
explicit. -/
def Player.calculateSpecialDamage (p : Player) (variance : Int) : Int :=
  max 1 ⌊(p.getTotalStats.strength : ℚ) + (p.getTotalStats.intelligence : ℚ) * (1.5 : ℚ) + (variance : ℚ)⌋

/-- `Player.getDodgeChance = Math.min(0.4, agility * 0.02)` on the effective
agility. -/
def Player.getDodgeChance (p : Player) : ℚ :=
  min (0.4 : ℚ) ((p.getTotalStats.agility : ℚ) * (0.02 : ℚ))

/-- `Player.isAlive`. -/
abbrev Player.isAlive (p : Player) : Prop := p.health > 0

/-- `Item.use`: a consumable's function effect applied to the player (the
returned message is the JS truthy result); `false`, i.e. `none`, for
non-consumables.  Health Potion heals 30 clamped at max health; Strength
Elixir adds +5 temporary strength. -/
def Item.use (i : Item) (p : Player) : Option String × Player :=
  match i with
  | .healthPotion =>
    (some ("Restored 30 HP"),
     { p with health := min p.maxHealth (p.health + 30) })
  | .strengthElixir =>
    (some ("Strength increased by 5"),
     { p with tempStats := { p.tempStats with strength := p.tempStats.strength + 5 } })
  | _ => (none, p)

-- ============================================================================
-- ENEMY
-- ============================================================================

/-- `class Enemy`.  Health stays integral (every applied damage is an
integer); `strength` and `agility` can be fractional in the level-scaled
templates, `defense` is always integral. -/
structure Enemy where
  name : String
  level : Nat
  maxHealth : Int
  health : Int
  strength : ℚ
  defense : Int
  agility : ℚ
  xpReward : Nat
  loot : List Item
deriving DecidableEq

/-- `Enemy.takeDamage`: same mitigation/clamping algorithm as the player's,
on the enemy's flat defense. -/
def Enemy.takeDamage (e : Enemy) (amount : Int) : Int × Enemy :=
  let reduction : Int := ⌊(e.defense : ℚ) * (0.5 : ℚ)⌋
  let damage := max 1 (amount - reduction)
  (damage, { e with health := max 0 (e.health - damage) })

/-- `Enemy.calculateDamage` with the `randomInt(-2, 2)` draw made explicit. -/
def Enemy.calculateDamage (e : Enemy) (variance : Int) : Int :=
  max 1 ⌊e.strength * (1.5 : ℚ) + (variance : ℚ)⌋

/-- `Enemy.getDodgeChance = Math.min(0.3, agility * 0.015)`. -/
def Enemy.getDodgeChance (e : Enemy) : ℚ :=
  min (0.3 : ℚ) (e.agility * (0.015 : ℚ))

/-- `Enemy.isAlive`. -/
abbrev Enemy.isAlive (e : Enemy) : Prop := e.health > 0

/-- `ENEMY_TEMPLATES.goblin`. -/
def goblinTemplate (level : Nat) : Enemy :=
  { name := "Goblin", level := level
    maxHealth := 30 + 5 * (level : Int), health := 30 + 5 * (level : Int)
    strength := 3 + (level : ℚ), defense := 2 + (level : Int)
    agility := 4 + (level : ℚ)
    xpReward := 20 + 5 * level
    loot := [.healthPotion] }

/-- `ENEMY_TEMPLATES.knight` (Corrupted Knight). -/
def knightTemplate (level : Nat) : Enemy :=
  { name := "Corrupted Knight", level := level
    maxHealth := 50 + 8 * (level : Int), health := 50 + 8 * (level : Int)
    strength := 6 + 2 * (level : ℚ), defense := 5 + 2 * (level : Int)
    agility := 2 + (level : ℚ)
    xpReward := 40 + 8 * level
    loot := [.ironSword, .chainmail] }

/-- `ENEMY_TEMPLATES.lightGuardian`. -/
def lightGuardianTemplate (level : Nat) : Enemy :=
  { name := "Light Guardian", level := level
    maxHealth := 80 + 10 * (level : Int), health := 80 + 10 * (level : Int)
    strength := 8 + 2 * (level : ℚ), defense := 6 + 2 * (level : Int)
    agility := 3 + (level : ℚ)
    xpReward := 60 + 10 * level
    loot := [.flameBlade, .crystalPlate] }

/-- `ENEMY_TEMPLATES.shadowBeast`. -/
def shadowBeastTemplate (level : Nat) : Enemy :=
  { name := "Shadow Beast", level := level
    maxHealth := 35 + 6 * (level : Int), health := 35 + 6 * (level : Int)
    strength := 5 + (1.5 : ℚ) * (level : ℚ), defense := 3 + (level : Int)
    agility := 6 + (1.5 : ℚ) * (level : ℚ)
    xpReward := 25 + 6 * level
    loot := [.healthPotion, .luckyCoin] }

/-- `ENEMY_TEMPLATES.darkMage`. -/
def darkMageTemplate (level : Nat) : Enemy :=
  { name := "Dark Mage", level := level
    maxHealth := 40 + 7 * (level : Int), health := 40 + 7 * (level : Int)
    strength := 4 + (level : ℚ), defense := 3 + (level : Int)
    agility := 5 + (level : ℚ)
    xpReward := 45 + 9 * level
    loot := [.ancientTome, .strengthElixir] }

/-- `ENEMY_TEMPLATES.shadowLord`. -/
def shadowLordTemplate (level : Nat) : Enemy :=
  { name := "Shadow Lord", level := level
    maxHealth := 100 + 12 * (level : Int), health := 100 + 12 * (level : Int)
    strength := 10 + (2.5 : ℚ) * (level : ℚ), defense := 7 + 2 * (level : Int)
    agility := 8 + 2 * (level : ℚ)
    xpReward := 80 + 15 * level
    loot := [.shadowDagger, .ancientTome] }

-- ============================================================================
-- SCENARIO SYSTEM & PROGRESSION SEQUENCER
-- ============================================================================

/-- Identifiers of the four non-entrance narrative catalog nodes in
`SCENARIOS`. -/
inductive NarrativeName
  | lightShrine
  | lightTreasure
  | shadowRitual
  | shadowAmbush
deriving DecidableEq

/-- A node as handed to the game controller by `getNextScenario`: the
universal entrance node, a narrative catalog node, or a freshly materialized
combat encounter (`isBoss` mirrors the `isBoss: true` flag present only on
boss encounters). -/
inductive CurScenario
  | entrance
  | narrative (n : NarrativeName)
  | encounter (enemy : Enemy) (isBoss : Bool)
deriving DecidableEq

/-- `currentScenario.isBoss` (falsy on every node except a boss encounter). -/
def CurScenario.isBoss : CurScenario → Bool
  | .encounter _ b => b
  | _ => false

/-- The three node-kind markers appearing in the path sequences. -/
inductive NodeKind
  | narrative (n : NarrativeName)
  | combat
  | bossCombat
deriving DecidableEq

/-- `lightPathSequence`. -/
def lightPathSequence : List NodeKind :=
  [.narrative .lightShrine, .combat, .narrative .lightTreasure, .combat, .bossCombat]

/-- `shadowPathSequence`. -/
def shadowPathSequence : List NodeKind :=
  [.narrative .shadowRitual, .combat, .narrative .shadowAmbush, .combat, .bossCombat]

/-- The sequence selected by `this.currentPath === 'light' ? ... : ...`. -/
def pathSequence : PathKind → List NodeKind
  | .light => lightPathSequence
  | .shadow => shadowPathSequence

/-- `class ScenarioManager` (progression cursor). -/
structure ScenarioManager where
  currentPath : Option PathKind
  scenarioIndex : Nat
  currentScenario : CurScenario
deriving DecidableEq

/-- `new ScenarioManager()` / `ScenarioManager.reset()`. -/
def initScenarioManager : ScenarioManager :=
  { currentPath := none, scenarioIndex := 0, currentScenario := .entrance }

/-- `ScenarioManager.createCombatScenario`: a random enemy from the path's
pool of two templates, scaled by the player's level.  The `randomChoice` draw
is the explicit index `choice` (taken modulo the pool size). -/
def createCombatScenario (path : PathKind) (playerLevel : Nat) (choice : Nat) : CurScenario :=
  let enemy :=
    match path with
    | .light => if choice % 2 = 0 then goblinTemplate playerLevel else knightTemplate playerLevel
    | .shadow => if choice % 2 = 0 then shadowBeastTemplate playerLevel else darkMageTemplate playerLevel
  .encounter enemy false

/-- `ScenarioManager.createBossScenario`: the path's unique boss, scaled by
player level + 1, flagged `isBoss`. -/
def createBossScenario (path : PathKind) (playerLevel : Nat) : CurScenario :=
  match path with
  | .light => .encounter (lightGuardianTemplate (playerLevel + 1)) true
  | .shadow => .encounter (shadowLordTemplate (playerLevel + 1)) true

/-- `ScenarioManager.getNextScenario`: entrance before a path is chosen;
the path-completion signal (`null`, here `none`) once the cursor has
exhausted the sequence; otherwise reads the node kind at the cursor, advances
the cursor by one, and materializes the node. -/
def getNextScenario (sm : ScenarioManager) (playerLevel : Nat) (choice : Nat) :
    Option CurScenario × ScenarioManager :=
  match sm.currentPath with
  | none => (some .entrance, sm)
  | some path =>
    let sequence := pathSequence path
    if h : sm.scenarioIndex ≥ sequence.length then (none, sm)
    else
      let scenarioType := sequence.get ⟨sm.scenarioIndex, lt_of_not_le h⟩
      let sm := { sm with scenarioIndex := sm.scenarioIndex + 1 }
      match scenarioType with
      | .combat => (some (createCombatScenario path playerLevel choice), sm)
      | .bossCombat => (some (createBossScenario path playerLevel), sm)
      | .narrative n => (some (.narrative n), sm)

-- ============================================================================
-- SCENARIO CHOICE EFFECTS (health-touching actions from `SCENARIOS`)
-- ============================================================================

/-- The `lightShrine` choice `Offer a prayer (costs 10 HP)`: health drops by
10 but never below 1, intelligence +2. -/
def lightShrinePrayer (p : Player) : Player :=
  { p with
    health := max 1 (p.health - 10)
    baseStats := { p.baseStats with intelligence := p.baseStats.intelligence + 2 } }

/-- The `shadowRitual` choice `Step into the circle`: health drops by a
`randomInt(10, 20)` draw (made explicit) but never below 1, strength +3. -/
def shadowRitualCircle (p : Player) (damage : Int) : Player :=
  { p with
    health := max 1 (p.health - damage)
    baseStats := { p.baseStats with strength := p.baseStats.strength + 3 } }

-- ============================================================================
-- COMBAT SYSTEM
-- ============================================================================

/-- `class CombatSystem`: rolling log (last 8 entries), turn owner flag and
turn counter. -/
structure CombatSystem where
  combatLog : List String
  playerTurn : Bool
  turnCount : Nat
deriving DecidableEq

/-- `CombatSystem.addLog`: push, dropping the oldest entry beyond 8. -/
def CombatSystem.addLog (cs : CombatSystem) (msg : String) : CombatSystem :=
  let log := cs.combatLog ++ [msg]
  { cs with combatLog := if log.length > 8 then log.tail else log }

/-- `CombatSystem.endTurn`: flips the turn owner and counts the turn. -/
def CombatSystem.endTurn (cs : CombatSystem) : CombatSystem :=
  { cs with playerTurn := !cs.playerTurn, turnCount := cs.turnCount + 1 }

/-- `CombatSystem.playerAttack` with the damage variance and the dodge roll
(`Math.random()`) made explicit.  Returns the updated log/enemy. -/
def CombatSystem.playerAttack (cs : CombatSystem) (p : Player) (e : Enemy)
    (variance : Int) (roll : ℚ) : CombatSystem × Enemy :=
  let damage := p.calculateDamage variance
  if roll < e.getDodgeChance then
    (cs.addLog (e.name ++ " dodged your attack!"), e)
  else
    let (actual, e) := e.takeDamage damage
    (cs.addLog ("You dealt " ++ toString actual ++ " damage to " ++ e.name ++ "!"), e)

/-- `CombatSystem.playerSpecialAttack`: special damage, dodged against half
the enemy's dodge chance. -/
def CombatSystem.playerSpecialAttack (cs : CombatSystem) (p : Player) (e : Enemy)
    (variance : Int) (roll : ℚ) : CombatSystem × Enemy :=
  let damage := p.calculateSpecialDamage variance
  if roll < e.getDodgeChance * (0.5 : ℚ) then
    (cs.addLog (e.name ++ " dodged your special attack!"), e)
  else
    let (actual, e) := e.takeDamage damage
    (cs.addLog ("Your special attack dealt " ++ toString actual ++ " damage!"), e)

/-- `CombatSystem.attemptEscape`: succeeds when the roll beats
`0.3 + agility * 0.02` (`CONFIG.ESCAPE_BASE_CHANCE`). -/
def CombatSystem.attemptEscape (cs : CombatSystem) (p : Player) (roll : ℚ) :
    Bool × CombatSystem :=
  let escapeChance := (0.3 : ℚ) + (p.getTotalStats.agility : ℚ) * (0.02 : ℚ)
  if roll < escapeChance then (true, cs.addLog ("You successfully escaped!"))
  else (false, cs.addLog ("Escape failed!"))

-- ============================================================================
-- GAME CONTROLLER
-- ============================================================================

/-- `GAME_STATES` (the `'SCENARIO'` tag is spelled `Scenario` here). -/
inductive GameState
  | MENU
  | EXPLORING
  | COMBAT
  | Scenario
  | INVENTORY
  | LEVEL_UP
  | GAME_OVER
  | VICTORY
deriving DecidableEq

/-- The semantic key events consumed by the state handlers (`'i'`/`'I'` are
collapsed into one toggle-inventory event, as both take the same branch). -/
inductive Key
  | up
  | down
  | enter
  | escape
  | keyI
deriving DecidableEq

/-- JS array indexing `xs[i]` with a possibly negative or out-of-range index
(`undefined` becomes `none`). -/
def listGetI {α : Type} (xs : List α) (i : Int) : Option α :=
  if h : 0 ≤ i ∧ i.toNat < xs.length then some (xs.get ⟨i.toNat, h.2⟩) else none

/-- `class Game`: the fields touched by the engine logic (canvas/rendering
and key-repeat bookkeeping are presentation-side and omitted). -/
structure Game where
  state : GameState
  player : Player
  combatSystem : CombatSystem
  scenarioManager : ScenarioManager
  currentEnemy : Option Enemy
  currentScenario : Option CurScenario
  selectedOption : Int
  inventorySelection : Int
  statSelection : Int
  messageLog : List String
  gameResult : Option String
deriving DecidableEq

/-- `Game.addMessage`: push, dropping the oldest entry beyond 5. -/
def Game.addMessage (g : Game) (msg : String) : Game :=
  let log := g.messageLog ++ [msg]
  { g with messageLog := if log.length > 5 then log.tail else log }

/-- `Game.victory`: terminal victory transition, recording the conquered
path in the result message. -/
def Game.victory (g : Game) : Game :=
  let path := if g.scenarioManager.currentPath = some .light then "Light" else "Shadow"
  { g with
    state := .VICTORY
    gameResult := some ("Victory! You conquered the Path of " ++ path ++
      " at level " ++ toString g.player.level ++ "!") }

/-- `Game.gameOver`: terminal defeat transition. -/
def Game.gameOver (g : Game) : Game :=
  { g with
    state := .GAME_OVER
    gameResult := some ("You were defeated at level " ++ toString g.player.level) }

/-- `Game.proceedToNextScenario`: pulls the next node from the progression
sequencer (the enemy-pool draw made explicit as `encChoice`); a `null` node
means the path is exhausted and the game is won. -/
def Game.proceedToNextScenario (g : Game) (encChoice : Nat) : Game :=
  let (nextScenario, sm) := getNextScenario g.scenarioManager g.player.level encChoice
  let g := { g with scenarioManager := sm }
  match nextScenario with
  | none => g.victory
  | some sc => { g with currentScenario := some sc, state := .Scenario, selectedOption := 0 }

/-- `Game.endCombat`: on victory, grant the enemy's experience (possibly
levelling up), grant one random loot item if the inventory has room
(`lootChoice` is the `randomChoice` draw), then either enter the level-up
state (early return), or go to `victory` for a boss, or clear temporary
stats and advance.  On a non-victory exit, clear and advance directly. -/
def Game.endCombat (g : Game) (victoryFlag : Bool) (lootChoice encChoice : Nat) : Game :=
  let cont := fun (g : Game) =>
    let g := { g with currentEnemy := none, player := { g.player with tempStats := Stats.zero } }
    g.proceedToNextScenario encChoice
  if victoryFlag then
    match g.currentEnemy with
    | none => g
    | some enemy =>
      let xpGained := enemy.xpReward
      let g := g.addMessage ("Victory! +" ++ toString xpGained ++ " XP")
      let (leveledUp, p) := g.player.addXP xpGained
      let g := { g with player := p }
      let g :=
        if enemy.loot.length > 0 then
          let loot := enemy.loot.getD (lootChoice % enemy.loot.length) .healthPotion
          let (added, inv) := g.player.inventory.addItem loot
          let g := { g with player := { g.player with inventory := inv } }
          if added then g.addMessage ("Found: " ++ loot.name) else g
        else g
      if leveledUp then { g with state := .LEVEL_UP, statSelection := 0 }
      else if (g.currentScenario.getD .entrance).isBoss then g.victory
      else cont g
  else cont g

/-- The synchronous part of `Game.checkCombatEnd`: victory when the enemy is
dead, game over when the player is dead; otherwise nothing happens
synchronously (on the enemy's turn the source schedules the delayed
enemy-turn callback, which is outside this step). -/
def Game.checkCombatEnd (g : Game) (lootChoice encChoice : Nat) : Game :=
  match g.currentEnemy with
  | none => g
  | some enemy =>
    if ¬ enemy.isAlive then g.endCombat true lootChoice encChoice
    else if ¬ g.player.isAlive then g.gameOver
    else g

/-- `Game.executeCombatAction`: dispatch on the selected combat action index
(0 attack, 1 special, 2 use item, 3 escape; the randomness of each action is
explicit).  `Use Item` switches to the inventory screen and returns without
a combat-end check; a successful escape ends combat without reward. -/
def Game.executeCombatAction (g : Game) (actionIndex : Int)
    (variance : Int) (roll : ℚ) (lootChoice encChoice : Nat) : Game :=
  if actionIndex = 2 then
    { g with state := .INVENTORY, inventorySelection := 0 }
  else
    match g.currentEnemy with
    | none => g
    | some enemy =>
      if actionIndex = 0 then
        let (cs, e) := g.combatSystem.playerAttack g.player enemy variance roll
        let g := { g with combatSystem := cs.endTurn, currentEnemy := some e }
        g.checkCombatEnd lootChoice encChoice
      else if actionIndex = 1 then
        let (cs, e) := g.combatSystem.playerSpecialAttack g.player enemy variance roll
        let g := { g with combatSystem := cs.endTurn, currentEnemy := some e }
        g.checkCombatEnd lootChoice encChoice
      else if actionIndex = 3 then
        let (escaped, cs) := g.combatSystem.attemptEscape g.player roll
        let g := { g with combatSystem := cs }
        if escaped then g.endCombat false lootChoice encChoice
        else
          let g := { g with combatSystem := g.combatSystem.endTurn }
          g.checkCombatEnd lootChoice encChoice
      else g.checkCombatEnd lootChoice encChoice

/-- `Game.handleInventoryInput`: selection movement, item use/equip on
confirm, and closing the screen — which always sets the state to
`EXPLORING`, whatever state the inventory was opened from. -/
def Game.handleInventoryInput (g : Game) (key : Key) : Game :=
  let allItems := g.player.inventory.items
  match key with
  | .up => { g with inventorySelection := max 0 (g.inventorySelection - 1) }
  | .down =>
    { g with inventorySelection := min ((allItems.length : Int) - 1) (g.inventorySelection + 1) }
  | .enter =>
    match listGetI allItems g.inventorySelection with
    | none => g
    | some item =>
      if item.type = .consumable then
        match item.use g.player with
        | (some msg, p) =>
          let g := ({ g with player := p }).addMessage msg
          { g with player := { g.player with inventory := (g.player.inventory.removeItem item).2 } }
        | (none, p) => { g with player := p }
      else
        let g := { g with player := { g.player with inventory := (g.player.inventory.equip item).2 } }
        g.addMessage ("Equipped " ++ item.name)
  | .escape => { g with state := .EXPLORING }
  | .keyI => { g with state := .EXPLORING }

/-- `Game.handleLevelUpInput`: with stat points left, confirm allocates one
point to the selected stat; with none left, confirm leaves for `EXPLORING`. -/
def Game.handleLevelUpInput (g : Game) (key : Key) : Game :=
  let stats : List String := ["strength", "defense", "agility", "intelligence"]
  if g.player.statPoints = 0 then
    if key = .enter then { g with state := .EXPLORING } else g
  else
    match key with
    | .up => { g with statSelection := max 0 (g.statSelection - 1) }
    | .down => { g with statSelection := min ((stats.length : Int) - 1) (g.statSelection + 1) }
    | .enter =>
      let chosen := (listGetI stats g.statSelection).getD ""
      let (_, p) := g.player.allocateStat chosen
      let g := ({ g with player := p }).addMessage ("+1 " ++ chosen)
      if g.player.statPoints = 0 then g.addMessage ("All stat points allocated!") else g
    | _ => g

-- ============================================================================
-- INVARIANT PREDICATES AND CONCRETE GAME SNAPSHOTS
-- ============================================================================

/-- The combatant health invariant for the player: `0 ≤ health ≤ maxHealth`. -/
def healthInvP (p : Player) : Prop := 0 ≤ p.health ∧ p.health ≤ p.maxHealth

/-- The combatant health invariant for an enemy: `0 ≤ health ≤ maxHealth`. -/
def healthInvE (e : Enemy) : Prop := 0 ≤ e.health ∧ e.health ≤ e.maxHealth

/-- The stat names accepted by `allocateStat` (the keys of `baseStats`). -/
def recognizedStat (s : String) : Prop :=
  s = "strength" ∨ s = "defense" ∨ s = "agility" ∨ s = "intelligence"

instance (s : String) : Decidable (recognizedStat s) := by
  unfold recognizedStat
  infer_instance

/-- A reachable player snapshot: level 1 with 210 accumulated XP (threshold
for level 2 is 282), hurt, with a +5 temporary strength buff from a Strength
Elixir. -/
def c1Player : Player :=
  { initPlayer with
    xp := 210
    health := 40
    tempStats := { Stats.zero with strength := 5 } }

/-- The light-path boss (spawned at player level + 1 = 2) just reduced to 0
health; its XP reward is 80, so granting it lifts `c1Player` past the
level-2 threshold. -/
def c1Boss : Enemy := { lightGuardianTemplate 2 with health := 0 }

/-- The game at the moment the boss encounter is won, with the level-up
about to trigger. -/
def c1Game : Game :=
  { state := .COMBAT
    player := c1Player
    combatSystem := { combatLog := [], playerTurn := true, turnCount := 4 }
    scenarioManager := { currentPath := some .light, scenarioIndex := 5, currentScenario := .entrance }
    currentEnemy := some c1Boss
    currentScenario := some (.encounter c1Boss true)
    selectedOption := 0, inventorySelection := 0, statSelection := 0
    messageLog := [], gameResult := none }

/-- A game in the middle of an ordinary (non-boss) combat on the light path,
with the selection cursor on the `Use Item` action. -/
def c2Game : Game :=
  { state := .COMBAT
    player := initPlayer
    combatSystem := { combatLog := [], playerTurn := true, turnCount := 0 }
    scenarioManager := { currentPath := some .light, scenarioIndex := 2, currentScenario := .entrance }
    currentEnemy := some (goblinTemplate 1)
    currentScenario := some (.encounter (goblinTemplate 1) false)
    selectedOption := 2, inventorySelection := 0, statSelection := 0
    messageLog := [], gameResult := none }

-- ============================================================================
-- HELPER LEMMAS (shared)
-- ============================================================================

/-- Writing a slot does not change the held list. -/
theorem items_setSlot (inv : Inventory) (s : Slot) (v : Option Item) :
    (inv.setSlot s v).items = inv.items := by
  cases s <;> rfl

/-- Writing a slot does not change the capacity. -/
theorem maxSlots_setSlot (inv : Inventory) (s : Slot) (v : Option Item) :
    (inv.setSlot s v).maxSlots = inv.maxSlots := by
  cases s <;> rfl

/-- Reading back the slot just written. -/
theorem getSlot_setSlot_same (inv : Inventory) (s : Slot) (v : Option Item) :
    (inv.setSlot s v).getSlot s = v := by
  cases s <;> rfl

/-- Writing one slot leaves the other slots unchanged. -/
theorem getSlot_setSlot_ne (inv : Inventory) {s s2 : Slot} (v : Option Item) (h : s2 ≠ s) :
    (inv.setSlot s v).getSlot s2 = inv.getSlot s2 := by
  cases s <;> cases s2 <;> first | rfl | exact absurd rfl h

/-- `addItem` never touches the equip slots. -/
theorem getSlot_addItem (inv : Inventory) (x : Item) (s : Slot) :
    ((inv.addItem x).2).getSlot s = inv.getSlot s := by
  unfold Inventory.addItem
  split <;> cases s <;> rfl

/-- `addItem` never touches the capacity. -/
theorem maxSlots_addItem (inv : Inventory) (x : Item) :
    ((inv.addItem x).2).maxSlots = inv.maxSlots := by
  unfold Inventory.addItem
  split <;> rfl

/-- Below capacity, `addItem` appends. -/
theorem items_addItem_of_lt (inv : Inventory) (x : Item)
    (h : inv.items.length < inv.maxSlots) :
    ((inv.addItem x).2).items = inv.items ++ [x] := by
  unfold Inventory.addItem
  rw [if_neg (by omega)]

/-- At (or beyond) capacity, `addItem` is a no-op. -/
theorem items_addItem_of_full (inv : Inventory) (x : Item)
    (h : inv.maxSlots ≤ inv.items.length) :
    (inv.addItem x).2 = inv := by
  unfold Inventory.addItem
  rw [if_pos h]

/-- `removeItem` never touches the equip slots. -/
theorem getSlot_removeItem (inv : Inventory) (x : Item) (s : Slot) :
    ((inv.removeItem x).2).getSlot s = inv.getSlot s := by
  unfold Inventory.removeItem
  split <;> cases s <;> rfl

/-- `removeItem` never touches the capacity. -/
theorem maxSlots_removeItem (inv : Inventory) (x : Item) :
    ((inv.removeItem x).2).maxSlots = inv.maxSlots := by
  unfold Inventory.removeItem
  split <;> rfl

/-- `removeItem` of a held item erases its first occurrence. -/
theorem items_removeItem_of_mem (inv : Inventory) (x : Item) (h : x ∈ inv.items) :
    ((inv.removeItem x).2).items = inv.items.erase x := by
  unfold Inventory.removeItem
  rw [if_pos h]

-- ============================================================================
-- CLAIM THEOREMS
-- ============================================================================

/-- Claim C1 (evaluation of the code at the failing input): when a combat
victory's experience gain triggers a level-up, `endCombat` returns early into
the `LEVEL_UP` state — even for the boss encounter — without clearing the
temporary stats, without the boss transition to `VICTORY`, and without
advancing the scenario cursor; and after the level-up screen is dismissed the
game sits in `EXPLORING` with the temporary stats still set, the cursor still
unadvanced and the defeated enemy still referenced.  This contradicts the
claim that the victory steps (boss → `victory`; otherwise clear temporary
stats and advance) happen in every case with the level-up state merely
interposed before continuing. -/
theorem endCombat_levelUp_drops_continuation :
    (c1Game.endCombat true 0 0).state = .LEVEL_UP ∧
    (c1Game.endCombat true 0 0).state ≠ .VICTORY ∧
    (c1Game.endCombat true 0 0).player.level = 2 ∧
    (c1Game.endCombat true 0 0).player.statPoints = 3 ∧
    (c1Game.endCombat true 0 0).player.tempStats.strength = 5 ∧
    (c1Game.endCombat true 0 0).currentEnemy.isSome = true ∧
    (c1Game.endCombat true 0 0).scenarioManager.scenarioIndex = 5 ∧
    ((((((c1Game.endCombat true 0 0).handleLevelUpInput .enter).handleLevelUpInput
        .enter).handleLevelUpInput .enter).handleLevelUpInput .enter).state = .EXPLORING ∧
     (((((c1Game.endCombat true 0 0).handleLevelUpInput .enter).handleLevelUpInput
        .enter).handleLevelUpInput .enter).handleLevelUpInput .enter).state ≠ .VICTORY ∧
     (((((c1Game.endCombat true 0 0).handleLevelUpInput .enter).handleLevelUpInput
        .enter).handleLevelUpInput .enter).handleLevelUpInput .enter).player.tempStats.strength = 5 ∧
     (((((c1Game.endCombat true 0 0).handleLevelUpInput .enter).handleLevelUpInput
        .enter).handleLevelUpInput .enter).handleLevelUpInput .enter).scenarioManager.scenarioIndex = 5 ∧
     (((((c1Game.endCombat true 0 0).handleLevelUpInput .enter).handleLevelUpInput
        .enter).handleLevelUpInput .enter).handleLevelUpInput .enter).currentEnemy.isSome = true) := by
  decide

/-- Claim C2 (evaluation of the code at the failing input): opening the
inventory from combat via the `Use Item` action and then cancelling
(Escape or the inventory toggle) lands the game in `EXPLORING`, not back in
`COMBAT`, while the live enemy is still referenced — `handleInventoryInput`
returns to `EXPLORING` unconditionally, contradicting the claim that
cancelling returns to the state the inventory was opened from. -/
theorem inventory_cancel_from_combat_goes_exploring :
    (c2Game.executeCombatAction 2 0 0 0 0).state = .INVENTORY ∧
    ((c2Game.executeCombatAction 2 0 0 0 0).handleInventoryInput .escape).state = .EXPLORING ∧
    ((c2Game.executeCombatAction 2 0 0 0 0).handleInventoryInput .escape).state ≠ .COMBAT ∧
    ((c2Game.executeCombatAction 2 0 0 0 0).handleInventoryInput .keyI).state = .EXPLORING ∧
    ((c2Game.executeCombatAction 2 0 0 0 0).handleInventoryInput .escape).currentEnemy.isSome = true := by
  decide

/-- Claim C3: every health-mutating operation — damage application (player
and enemy), drinking a Health Potion, the health-touching scenario choice
effects (shrine prayer, ritual circle with its non-negative damage draw),
`levelUp`, and `addXP` (which can level up) — preserves the combatant
invariant `0 ≤ health ≤ maxHealth`. -/
theorem health_bounds_preserved :
    (∀ p : Player, 0 ≤ p.health → p.health ≤ p.maxHealth → 1 ≤ p.maxHealth →
      (∀ amount, healthInvP (p.takeDamage amount).2) ∧
      healthInvP (Item.use .healthPotion p).2 ∧
      healthInvP (lightShrinePrayer p) ∧
      (∀ d, 0 ≤ d → healthInvP (shadowRitualCircle p d)) ∧
      healthInvP p.levelUp ∧
      (∀ amount, healthInvP (p.addXP amount).2)) ∧
    (∀ e : Enemy, 0 ≤ e.health → e.health ≤ e.maxHealth →
      ∀ amount, healthInvE (e.takeDamage amount).2) := by
  constructor
  · intro p h0 h1 h2
    refine ⟨?_, ?_, ?_, ?_, ?_, ?_⟩
    · intro a
      simp only [Player.takeDamage, healthInvP]
      set f := ⌊(p.getTotalStats.defense : ℚ) * (0.5 : ℚ)⌋
      constructor <;> omega
    · simp only [Item.use, healthInvP]
      constructor <;> omega
    · simp only [lightShrinePrayer, healthInvP]
      constructor <;> omega
    · intro d hd
      simp only [shadowRitualCircle, healthInvP]
      constructor <;> omega
    · simp only [Player.levelUp, healthInvP]
      constructor <;> omega
    · intro a
      simp only [Player.addXP]
      split
      · simp only [Player.levelUp, healthInvP]
        constructor <;> omega
      · exact ⟨h0, h1⟩
  · intro e h0 h1 a
    simp only [Enemy.takeDamage, healthInvE]
    set f := ⌊((e.defense : Int) : ℚ) * (0.5 : ℚ)⌋
    constructor <;> omega

/-- Witness for C3: the invariant instantiated on the fresh player (damage
and ritual circle) and on a level-1 goblin. -/
theorem health_bounds_witness :
    healthInvP (initPlayer.takeDamage 7).2 ∧
    healthInvP (shadowRitualCircle initPlayer 15) ∧
    healthInvE ((goblinTemplate 1).takeDamage 9).2 :=
  ⟨(health_bounds_preserved.1 initPlayer (by decide) (by decide) (by decide)).1 7,
   (health_bounds_preserved.1 initPlayer (by decide) (by decide) (by decide)).2.2.2.1 15 (by decide),
   health_bounds_preserved.2 (goblinTemplate 1) (by decide) (by decide) 9⟩

/-- Claim C4: damage application computes mitigation
`⌊effectiveDefense * 0.5⌋` and final damage `max 1 (raw − mitigation)` (never
below 1), decreases health by the final damage clamped at 0, leaves max
health unchanged, and returns the final damage; and the worked example — an
enemy with defense 4 hit for a raw 5 takes exactly 3. -/
theorem takeDamage_formula :
    (∀ (p : Player) (amount : Int), 0 ≤ amount →
      (p.takeDamage amount).1 = max 1 (amount - ⌊(p.getTotalStats.defense : ℚ) * (0.5 : ℚ)⌋) ∧
      1 ≤ (p.takeDamage amount).1 ∧
      (p.takeDamage amount).2.health = max 0 (p.health - (p.takeDamage amount).1) ∧
      (p.takeDamage amount).2.maxHealth = p.maxHealth) ∧
    (∀ (e : Enemy) (amount : Int), 0 ≤ amount →
      (e.takeDamage amount).1 = max 1 (amount - ⌊(e.defense : ℚ) * (0.5 : ℚ)⌋) ∧
      1 ≤ (e.takeDamage amount).1 ∧
      (e.takeDamage amount).2.health = max 0 (e.health - (e.takeDamage amount).1) ∧
      (e.takeDamage amount).2.maxHealth = e.maxHealth) ∧
    ((goblinTemplate 2).takeDamage 5).1 = 3 := by
  refine ⟨fun _p _a _ => ⟨rfl, le_max_left _ _, rfl, rfl⟩,
          fun _e _a _ => ⟨rfl, le_max_left _ _, rfl, rfl⟩, ?_⟩
  show max 1 ((5 : Int) - ⌊((goblinTemplate 2).defense : ℚ) * (0.5 : ℚ)⌋) = 3
  norm_num [goblinTemplate]

/-- Witness for C4: a level-2 goblin has defense 4 and takes 3 from a raw 5. -/
theorem takeDamage_witness :
    0 ≤ (5 : Int) ∧
    ((goblinTemplate 2).takeDamage 5).1 =
      max 1 ((5 : Int) - ⌊((goblinTemplate 2).defense : ℚ) * (0.5 : ℚ)⌋) :=
  ⟨by norm_num, (takeDamage_formula.2.1 (goblinTemplate 2) 5 (by norm_num)).1⟩

/-- Claim C5: the progression cursor is monotone and never revisits an index
(a node-producing call consumes exactly its current index and advances by
one), `getNextScenario` returns the completion signal (`none`) exactly when a
path is chosen and its sequence length is exhausted, never advances the
cursor past the sequence length, and before any path is chosen it returns the
entrance scenario without advancing. -/
theorem progression_cursor_spec (sm : ScenarioManager) (playerLevel choice : Nat) :
    sm.scenarioIndex ≤ (getNextScenario sm playerLevel choice).2.scenarioIndex ∧
    (sm.currentPath = none →
      getNextScenario sm playerLevel choice = (some .entrance, sm)) ∧
    (∀ pk, sm.currentPath = some pk → (pathSequence pk).length ≤ sm.scenarioIndex →
      getNextScenario sm playerLevel choice = (none, sm)) ∧
    ((getNextScenario sm playerLevel choice).1 = none ↔
      ∃ pk, sm.currentPath = some pk ∧ (pathSequence pk).length ≤ sm.scenarioIndex) ∧
    (∀ pk, sm.currentPath = some pk → sm.scenarioIndex < (pathSequence pk).length →
      (getNextScenario sm playerLevel choice).2.scenarioIndex = sm.scenarioIndex + 1 ∧
      ((getNextScenario sm playerLevel choice).1).isSome = true) ∧
    (∀ pk, sm.currentPath = some pk →
      (getNextScenario sm playerLevel choice).2.scenarioIndex ≤
        max sm.scenarioIndex (pathSequence pk).length) := by
  cases hcp : sm.currentPath with
  | none =>
    simp [getNextScenario, hcp]
  | some pk =>
    by_cases hlen : (pathSequence pk).length ≤ sm.scenarioIndex
    · have hout : getNextScenario sm playerLevel choice = (none, sm) := by
        simp [getNextScenario, hcp, hlen]
      rw [hout]
      refine ⟨le_refl _, by simp, fun pk2 h2 _ => rfl, ?_, ?_, ?_⟩
      · exact ⟨fun _ => ⟨pk, rfl, hlen⟩, fun _ => rfl⟩
      · intro pk2 h2 hlt
        injection h2 with h2
        subst h2
        omega
      · intro pk2 h2
        exact le_max_left _ _
    · push_neg at hlen
      have hstep :
          (getNextScenario sm playerLevel choice).2.scenarioIndex = sm.scenarioIndex + 1 ∧
          ((getNextScenario sm playerLevel choice).1).isSome = true := by
        simp only [getNextScenario, hcp]
        rw [dif_neg (by omega)]
        rcases hk : (pathSequence pk).get ⟨sm.scenarioIndex, hlen⟩ with n | _ | _ <;>
          simp [hk]
      refine ⟨by omega, by simp, ?_, ?_, ?_, ?_⟩
      · intro pk2 h2 hge
        injection h2 with h2
        subst h2
        omega
      · constructor
        · intro hnone
          rw [hnone] at hstep
          simp at hstep
        · rintro ⟨pk2, h2, hge⟩
          injection h2 with h2
          subst h2
          omega
      · intro pk2 h2 _
        exact hstep
      · intro pk2 h2
        injection h2 with h2
        subst h2
        omega

/-- Witness for C5: no path chosen returns the entrance without advancing;
index 0 on the light path advances to 1; index 5 on the light path yields the
completion signal without advancing. -/
theorem progression_cursor_witness :
    getNextScenario initScenarioManager 1 0 = (some .entrance, initScenarioManager) ∧
    (getNextScenario { currentPath := some .light, scenarioIndex := 0, currentScenario := .entrance } 1 0).2.scenarioIndex = 0 + 1 ∧
    getNextScenario { currentPath := some .light, scenarioIndex := 5, currentScenario := .entrance } 1 0 =
      (none, { currentPath := some .light, scenarioIndex := 5, currentScenario := .entrance }) :=
  ⟨(progression_cursor_spec initScenarioManager 1 0).2.1 rfl,
   ((progression_cursor_spec { currentPath := some .light, scenarioIndex := 0, currentScenario := .entrance } 1 0).2.2.2.2.1
     .light rfl (by decide)).1,
   (progression_cursor_spec { currentPath := some .light, scenarioIndex := 5, currentScenario := .entrance } 1 0).2.2.1
     .light rfl (by decide)⟩

/-- Claim C6: for a held item whose category has an equip slot, equipping it
and then unequipping that slot succeeds, puts the item back on the held list,
leaves the slot empty and the other slots untouched, and leaves the held list
a permutation of the original held list plus the slot's previous occupant (if
any) — provided the held list had room to take back a previous occupant. -/
theorem equip_unequip_roundtrip (inv : Inventory) (it : Item) (s : Slot)
    (hmem : it ∈ inv.items)
    (hslot : slotOfType it.type = some s)
    (hcap : inv.items.length ≤ inv.maxSlots)
    (hroom : (inv.getSlot s).isSome → inv.items.length < inv.maxSlots) :
    (inv.equip it).1 = true ∧
    ((inv.equip it).2.unequip s).1 = true ∧
    it ∈ ((inv.equip it).2.unequip s).2.items ∧
    ((inv.equip it).2.unequip s).2.getSlot s = none ∧
    (∀ s2, s2 ≠ s → ((inv.equip it).2.unequip s).2.getSlot s2 = inv.getSlot s2) ∧
    ((inv.equip it).2.unequip s).2.items.Perm (inv.items ++ (inv.getSlot s).toList) ∧
    ((inv.equip it).2.unequip s).2.maxSlots = inv.maxSlots := by
  have hpos : 0 < inv.items.length := List.length_pos_of_mem hmem
  cases hso : inv.getSlot s with
  | none =>
    have hequip : inv.equip it = (true, ((inv.setSlot s (some it)).removeItem it).2) := by
      simp only [Inventory.equip, if_pos hmem, hslot, hso]
    set A := ((inv.setSlot s (some it)).removeItem it).2 with hAdef
    have hAitems : A.items = inv.items.erase it := by
      rw [hAdef, items_removeItem_of_mem _ _ (by rw [items_setSlot]; exact hmem), items_setSlot]
    have hAs : A.getSlot s = some it := by
      rw [hAdef, getSlot_removeItem, getSlot_setSlot_same]
    have hAmax : A.maxSlots = inv.maxSlots := by
      rw [hAdef, maxSlots_removeItem, maxSlots_setSlot]
    have hAlen : A.items.length = inv.items.length - 1 := by
      rw [hAitems, List.length_erase_of_mem hmem]
    have hunequip : A.unequip s = (true, ((A.setSlot s none).addItem it).2) := by
      simp only [Inventory.unequip, hAs]
    have hfin : ((A.setSlot s none).addItem it).2.items = inv.items.erase it ++ [it] := by
      rw [items_addItem_of_lt _ _ (by rw [items_setSlot, maxSlots_setSlot]; omega),
        items_setSlot, hAitems]
    refine ⟨by rw [hequip], by rw [hequip, hunequip], ?_, ?_, ?_, ?_, ?_⟩
    · rw [hequip, hunequip]
      simp [hfin]
    · rw [hequip, hunequip, getSlot_addItem, getSlot_setSlot_same]
    · intro s2 hne
      rw [hequip, hunequip, getSlot_addItem, getSlot_setSlot_ne _ _ hne, hAdef,
        getSlot_removeItem, getSlot_setSlot_ne _ _ hne]
    · rw [hequip, hunequip]
      simp only [hfin, Option.toList_none, List.append_nil]
      exact (List.perm_append_singleton it _).trans (List.perm_cons_erase hmem).symm
    · rw [hequip, hunequip, maxSlots_addItem, maxSlots_setSlot, hAmax]
  | some o =>
    have hlt : inv.items.length < inv.maxSlots := hroom (by rw [hso]; rfl)
    have hequip :
        inv.equip it = (true, (((inv.addItem o).2.setSlot s (some it)).removeItem it).2) := by
      simp only [Inventory.equip, if_pos hmem, hslot, hso]
    set A := (((inv.addItem o).2.setSlot s (some it)).removeItem it).2 with hAdef
    have hBitems : ((inv.addItem o).2).items = inv.items ++ [o] := items_addItem_of_lt _ _ hlt
    have hAitems : A.items = inv.items.erase it ++ [o] := by
      rw [hAdef, items_removeItem_of_mem _ _ (by rw [items_setSlot, hBitems]; exact List.mem_append_left _ hmem),
        items_setSlot, hBitems, List.erase_append_left _ hmem]
    have hAs : A.getSlot s = some it := by
      rw [hAdef, getSlot_removeItem, getSlot_setSlot_same]
    have hAmax : A.maxSlots = inv.maxSlots := by
      rw [hAdef, maxSlots_removeItem, maxSlots_setSlot, maxSlots_addItem]
    have hAlen : A.items.length = inv.items.length := by
      rw [hAitems, List.length_append, List.length_erase_of_mem hmem]
      simp
      omega
    have hunequip : A.unequip s = (true, ((A.setSlot s none).addItem it).2) := by
      simp only [Inventory.unequip, hAs]
    have hfin : ((A.setSlot s none).addItem it).2.items = (inv.items.erase it ++ [o]) ++ [it] := by
      rw [items_addItem_of_lt _ _ (by rw [items_setSlot, maxSlots_setSlot]; omega),
        items_setSlot, hAitems]
    refine ⟨by rw [hequip], by rw [hequip, hunequip], ?_, ?_, ?_, ?_, ?_⟩
    · rw [hequip, hunequip]
      simp [hfin]
    · rw [hequip, hunequip, getSlot_addItem, getSlot_setSlot_same]
    · intro s2 hne
      rw [hequip, hunequip, getSlot_addItem, getSlot_setSlot_ne _ _ hne, hAdef,
        getSlot_removeItem, getSlot_setSlot_ne _ _ hne, getSlot_addItem]
    · rw [hequip, hunequip]
      simp only [hfin, Option.toList_some]
      exact (List.perm_append_singleton it _).trans
        (((List.perm_cons_erase hmem).symm).append_right [o])
    · rw [hequip, hunequip, maxSlots_addItem, maxSlots_setSlot, hAmax]

/-- Witness for C6: the fresh player's Rusty Dagger round-trips through the
weapon slot; with an Iron Sword already equipped, the round-trip returns it
to the held list. -/
theorem equip_unequip_witness :
    (let inv := initPlayer.inventory
     Item.rustyDagger ∈ ((inv.equip .rustyDagger).2.unequip .weapon).2.items ∧
     ((inv.equip .rustyDagger).2.unequip .weapon).2.getSlot .weapon = none ∧
     ((inv.equip .rustyDagger).2.unequip .weapon).2.items.Perm
       (inv.items ++ (inv.getSlot .weapon).toList)) ∧
    (let inv2 : Inventory :=
      { items := [.rustyDagger], maxSlots := 15
        weapon := some .ironSword, armor := none, artifact := none }
     ((inv2.equip .rustyDagger).2.unequip .weapon).2.items.Perm
       (inv2.items ++ (inv2.getSlot .weapon).toList)) :=
  ⟨⟨(equip_unequip_roundtrip initPlayer.inventory .rustyDagger .weapon (by decide) (by decide)
      (by decide) (by decide)).2.2.1,
    (equip_unequip_roundtrip initPlayer.inventory .rustyDagger .weapon (by decide) (by decide)
      (by decide) (by decide)).2.2.2.1,
    (equip_unequip_roundtrip initPlayer.inventory .rustyDagger .weapon (by decide) (by decide)
      (by decide) (by decide)).2.2.2.2.2.1⟩,
   (equip_unequip_roundtrip
      { items := [.rustyDagger], maxSlots := 15
        weapon := some .ironSword, armor := none, artifact := none } .rustyDagger .weapon
      (by decide) (by decide) (by decide) (by decide)).2.2.2.2.2.1⟩

/-- Claim C7: every `levelUp` call adds exactly +1 level, +3 stat points,
+1 to each of the four base stats, +10 max health, and sets health to the new
maximum (full heal). -/
theorem levelUp_fixed_increments (p : Player) :
    (p.levelUp).level = p.level + 1 ∧
    (p.levelUp).statPoints = p.statPoints + 3 ∧
    (p.levelUp).baseStats.strength = p.baseStats.strength + 1 ∧
    (p.levelUp).baseStats.defense = p.baseStats.defense + 1 ∧
    (p.levelUp).baseStats.agility = p.baseStats.agility + 1 ∧
    (p.levelUp).baseStats.intelligence = p.baseStats.intelligence + 1 ∧
    (p.levelUp).maxHealth = p.maxHealth + 10 ∧
    (p.levelUp).health = (p.levelUp).maxHealth :=
  ⟨rfl, rfl, rfl, rfl, rfl, rfl, rfl, rfl⟩

/-- Claim C8: with a non-negative stat-point balance, `allocateStat` fails
and changes nothing when the balance is zero or the name is unrecognized;
otherwise it increments exactly the named base stat by 1 and decrements the
balance by 1; it never drives the balance below 0 and never succeeds at 0. -/
theorem allocateStat_spec (p : Player) (s : String) (hp : 0 ≤ p.statPoints) :
    ((p.statPoints = 0 ∨ ¬ recognizedStat s) → p.allocateStat s = (false, p)) ∧
    (p.statPoints ≠ 0 → s = "strength" →
      p.allocateStat s = (true, { p with baseStats := { p.baseStats with strength := p.baseStats.strength + 1 }, statPoints := p.statPoints - 1 })) ∧
    (p.statPoints ≠ 0 → s = "defense" →
      p.allocateStat s = (true, { p with baseStats := { p.baseStats with defense := p.baseStats.defense + 1 }, statPoints := p.statPoints - 1 })) ∧
    (p.statPoints ≠ 0 → s = "agility" →
      p.allocateStat s = (true, { p with baseStats := { p.baseStats with agility := p.baseStats.agility + 1 }, statPoints := p.statPoints - 1 })) ∧
    (p.statPoints ≠ 0 → s = "intelligence" →
      p.allocateStat s = (true, { p with baseStats := { p.baseStats with intelligence := p.baseStats.intelligence + 1 }, statPoints := p.statPoints - 1 })) ∧
    (p.statPoints ≠ 0 → recognizedStat s → (p.allocateStat s).1 = true ∧
      (p.allocateStat s).2.statPoints = p.statPoints - 1) ∧
    0 ≤ (p.allocateStat s).2.statPoints ∧
    (p.statPoints = 0 → (p.allocateStat s).1 = false) := by
  have hsplit : p.statPoints = 0 ∨ p.statPoints > 0 := by omega
  refine ⟨?_, ?_, ?_, ?_, ?_, ?_, ?_, ?_⟩
  · rintro (h | h)
    · simp [Player.allocateStat, h]
    · rcases hsplit with h0 | h0
      · simp [Player.allocateStat, h0]
      · simp only [recognizedStat, not_or] at h
        simp [Player.allocateStat, h0, h.1, h.2.1, h.2.2.1, h.2.2.2]
  · intro hne hs
    have h0 : p.statPoints > 0 := by omega
    simp [Player.allocateStat, h0, hs]
  · intro hne hs
    have h0 : p.statPoints > 0 := by omega
    subst hs
    simp [Player.allocateStat, h0]
  · intro hne hs
    have h0 : p.statPoints > 0 := by omega
    subst hs
    simp [Player.allocateStat, h0]
  · intro hne hs
    have h0 : p.statPoints > 0 := by omega
    subst hs
    simp [Player.allocateStat, h0]
  · intro hne hs
    have h0 : p.statPoints > 0 := by omega
    rcases hs with h | h | h | h <;> subst h <;> simp [Player.allocateStat, h0]
  · simp only [Player.allocateStat]
    split
    · split_ifs <;> simp <;> omega
    · simpa using hp
  · intro h0
    simp [Player.allocateStat, h0]

/-- Witness for C8: the fresh player (0 points) cannot allocate; with 3
points an unrecognized name keeps the balance non-negative and a recognized
one succeeds. -/
theorem allocateStat_witness :
    0 ≤ initPlayer.statPoints ∧
    initPlayer.allocateStat ("strength") = (false, initPlayer) ∧
    0 ≤ (({ initPlayer with statPoints := 3 } : Player).allocateStat ("luck")).2.statPoints ∧
    (({ initPlayer with statPoints := 3 } : Player).allocateStat ("agility")).1 = true :=
  ⟨by decide,
   (allocateStat_spec initPlayer "strength" (by decide)).1 (Or.inl rfl),
   (allocateStat_spec { initPlayer with statPoints := 3 } "luck" (by decide)).2.2.2.2.2.2.1,
   ((allocateStat_spec { initPlayer with statPoints := 3 } "agility" (by decide)).2.2.2.2.2.1
     (by decide) (Or.inr (Or.inr (Or.inl rfl)))).1⟩

/-- Claim C9: the dodge probability is exactly `min(0.4, agility·0.02)` for
the player and `min(0.3, agility·0.015)` for an enemy, hence never exceeds
0.4 respectively 0.3 whatever the agility. -/
theorem dodgeChance_formula_cap :
    (∀ p : Player, p.getDodgeChance = min (0.4 : ℚ) ((p.getTotalStats.agility : ℚ) * (0.02 : ℚ)) ∧
      p.getDodgeChance ≤ (0.4 : ℚ)) ∧
    (∀ e : Enemy, e.getDodgeChance = min (0.3 : ℚ) (e.agility * (0.015 : ℚ)) ∧
      e.getDodgeChance ≤ (0.3 : ℚ)) :=
  ⟨fun _p => ⟨rfl, min_le_left _ _⟩, fun _e => ⟨rfl, min_le_left _ _⟩⟩

/-- Claim C10: unequipping an occupied slot while the held list is full still
returns success and clears the slot, but the silent `addItem` failure leaves
the held list unchanged — so an item held nowhere else is afterwards
referenced by neither the held list nor any slot. -/
theorem unequip_full_inventory_spec (inv : Inventory) (s : Slot) (it : Item)
    (hfull : inv.maxSlots ≤ inv.items.length)
    (hocc : inv.getSlot s = some it)
    (hheld : it ∉ inv.items)
    (hother : ∀ s2, s2 ≠ s → inv.getSlot s2 ≠ some it) :
    (inv.unequip s).1 = true ∧
    (inv.unequip s).2.getSlot s = none ∧
    (inv.unequip s).2.items = inv.items ∧
    it ∉ (inv.unequip s).2.items ∧
    ∀ s2, (inv.unequip s).2.getSlot s2 ≠ some it := by
  have hun : inv.unequip s = (true, ((inv.setSlot s none).addItem it).2) := by
    simp only [Inventory.unequip, hocc]
  have hadd : ((inv.setSlot s none).addItem it).2 = inv.setSlot s none :=
    items_addItem_of_full _ _ (by rw [items_setSlot, maxSlots_setSlot]; exact hfull)
  refine ⟨by rw [hun], ?_, ?_, ?_, ?_⟩
  · rw [hun]
    show ((inv.setSlot s none).addItem it).2.getSlot s = none
    rw [hadd, getSlot_setSlot_same]
  · rw [hun]
    show ((inv.setSlot s none).addItem it).2.items = inv.items
    rw [hadd, items_setSlot]
  · rw [hun]
    show it ∉ ((inv.setSlot s none).addItem it).2.items
    rw [hadd, items_setSlot]
    exact hheld
  · intro s2
    rw [hun]
    show ((inv.setSlot s none).addItem it).2.getSlot s2 ≠ some it
    rw [hadd]
    by_cases h : s2 = s
    · subst h
      rw [getSlot_setSlot_same]
      simp
    · rw [getSlot_setSlot_ne _ _ h]
      exact hother s2 h

/-- Witness for C10: a 2-capacity inventory holding two items with an Iron
Sword equipped — unequipping succeeds, clears the slot, and the sword is
gone. -/
theorem unequip_full_inventory_witness :
    (let inv : Inventory :=
      { items := [.rustyDagger, .healthPotion], maxSlots := 2
        weapon := some .ironSword, armor := none, artifact := none }
     (inv.unequip .weapon).1 = true ∧
     (inv.unequip .weapon).2.getSlot .weapon = none ∧
     (inv.unequip .weapon).2.items = inv.items ∧
     Item.ironSword ∉ (inv.unequip .weapon).2.items ∧
     ∀ s2, (inv.unequip .weapon).2.getSlot s2 ≠ some .ironSword) :=
  unequip_full_inventory_spec
    { items := [.rustyDagger, .healthPotion], maxSlots := 2
      weapon := some .ironSword, armor := none, artifact := none } .weapon .ironSword
    (by decide) (by decide) (by decide) (by decide)
